import Mathlib

/-!
# Logistics microservice (`server.js`): request handling and tariff lookup

A shallow embedding of the request path of `server.js`: `parseBody`, `sendJSON`,
`handleGetTariffs`, `handleCalculate`, `handleHealth` and the dispatch callback given to
`http.createServer`.

Conventions of the embedding.

* A JavaScript value that can reach the handlers is a `JVal`: what `JSON.parse` can return,
  plus `undefined` for the result of reading a property that is not there.
* A JavaScript number is a `JNum`: a finite value, the two infinities or NaN.  Finite values
  are rationals (every finite double is one); the two signed zeros are identified.
* Operations of the JavaScript runtime that the file calls but does not define (`JSON.parse`,
  `String.prototype.toLowerCase`, number `*` and `+`, number to string conversion,
  `process.uptime()`, `process.memoryUsage()`) are the fields of `Runtime`.
* A `throw` is the `error` side of `Except String _`; the string is the `message` of the
  thrown `Error`.
* `console.log` output is not part of the model.  The template strings that `logRequest` is
  given are still evaluated where evaluating them can throw: the first message of
  `handleCalculate` interpolates `destination` and `weight_kg` as they came out of the body.
  The later messages interpolate the same two values again, strings and numbers.
* A `Response` records the status code, the headers of `res.writeHead` and the value handed
  to `JSON.stringify` in `res.end` (`none` when `res.end()` is called without a payload).
-/

namespace Logistics

/-! ## Values -/

/-- A JavaScript number: finite, `Infinity`, `-Infinity` or `NaN`. -/
inductive JNum where
  | fin (q : ℚ)
  | posInf
  | negInf
  | nan
  deriving DecidableEq

namespace JNum

/-- The comparison `x <= 0` of JavaScript (false for `NaN`). -/
def leZero : JNum → Bool
  | fin q => decide (q ≤ 0)
  | posInf => false
  | negInf => true
  | nan => false

/-- The comparison `x > 0` of JavaScript (false for `NaN`). -/
def gtZero : JNum → Bool
  | fin q => decide (0 < q)
  | posInf => true
  | negInf => false
  | nan => false

/-- The test `Number.isFinite(x)`. -/
def isFinite : JNum → Bool
  | fin _ => true
  | _ => false

/-- Whether `!x` holds for a number: zero and `NaN` are the falsy numbers. -/
def falsy : JNum → Bool
  | fin q => decide (q = 0)
  | nan => true
  | _ => false

end JNum

/-- A JavaScript value as `JSON.parse` builds it, or `undefined`.  The list of an object is
the list of its own properties; when a key occurs twice the later entry is the property
(as `JSON.parse` does for a repeated member). -/
inductive JVal where
  | undefined
  | null
  | bool (b : Bool)
  | num (x : JNum)
  | str (s : String)
  | arr (items : List JVal)
  | obj (props : List (String × JVal))

namespace JVal

/-- The own property `key` of a property list, `undefined` when there is none. -/
def lookupProp (key : String) (props : List (String × JVal)) : JVal :=
  match props.reverse.lookup key with
  | some v => v
  | none => JVal.undefined

/-- Whether a property list has an own property `key`. -/
def hasOwn (key : String) (props : List (String × JVal)) : Bool :=
  (props.reverse.lookup key).isSome

/-- The property read `v.key` for a value `v` that is not `null` or `undefined` and a key
that none of the built-in prototypes defines (`destination`, `weight_kg`): an own property
of an object, `undefined` for every other value. -/
def prop (v : JVal) (key : String) : JVal :=
  match v with
  | obj props => lookupProp key props
  | _ => JVal.undefined

/-- Truthiness: `!v` is false. -/
def truthy : JVal → Bool
  | undefined => false
  | null => false
  | bool b => b
  | num x => !x.falsy
  | str s => decide (s ≠ "")
  | arr _ => true
  | obj _ => true

/-- The test `v === undefined`. -/
def isUndefined : JVal → Bool
  | undefined => true
  | _ => false

end JVal

/-- The message of the `TypeError` of V8 for a conversion of an object to a primitive that
finds no callable `toString` or `valueOf` returning a primitive. -/
def toPrimitiveMsg : String := "Cannot convert object to primitive value"

/-- The message of the `TypeError` of V8 for `destination.toLowerCase()` when the value has
no callable `toLowerCase`. -/
def notAFunctionMsg : String := "destination.toLowerCase is not a function"

/-- The message of the `TypeError` of V8 for `const \x7b destination, weight_kg \x7d = body`
when `body` is `null`. -/
def destructureNullMsg : String :=
  "Cannot destructure property \x27destination\x27 of \x27body\x27 as it is null."

/-- The same for `undefined`. -/
def destructureUndefinedMsg : String :=
  "Cannot destructure property \x27destination\x27 of \x27body\x27 as it is undefined."

mutual
/-- The conversion `ToString` a template literal applies to an interpolated value.
An array goes through `Array.prototype.join`.  An object built by `JSON.parse` has no
callable property of its own: with an own `toString` property the conversion finds that
one (not callable), then `Object.prototype.valueOf` (returns the object), and throws;
without one it reaches `Object.prototype.toString`. -/
def JVal.toStr (numToString : JNum → String) : JVal → Except String String
  | JVal.undefined => Except.ok "undefined"
  | JVal.null => Except.ok "null"
  | JVal.bool b => Except.ok (if b then "true" else "false")
  | JVal.num x => Except.ok (numToString x)
  | JVal.str s => Except.ok s
  | JVal.arr items => JVal.joinStr numToString items
  | JVal.obj props =>
    if JVal.hasOwn "toString" props then Except.error toPrimitiveMsg
    else Except.ok "[object Object]"
/-- The string of one element inside `join`: empty for `null` and `undefined`. -/
def JVal.elemStr (numToString : JNum → String) : JVal → Except String String
  | JVal.undefined => Except.ok ""
  | JVal.null => Except.ok ""
  | JVal.bool b => Except.ok (if b then "true" else "false")
  | JVal.num x => Except.ok (numToString x)
  | JVal.str s => Except.ok s
  | JVal.arr items => JVal.joinStr numToString items
  | JVal.obj props =>
    if JVal.hasOwn "toString" props then Except.error toPrimitiveMsg
    else Except.ok "[object Object]"
/-- The call `items.join(",")`. -/
def JVal.joinStr (numToString : JNum → String) : List JVal → Except String String
  | [] => Except.ok ""
  | [x] => JVal.elemStr numToString x
  | x :: y :: rest =>
    match JVal.elemStr numToString x with
    | Except.error e => Except.error e
    | Except.ok a =>
      match JVal.joinStr numToString (y :: rest) with
      | Except.error e => Except.error e
      | Except.ok b => Except.ok (a ++ "," ++ b)
end

/-! ## The runtime, the tariff table, requests and responses -/

/-- The operations of the JavaScript runtime that `server.js` calls. -/
structure Runtime where
  /-- The function `JSON.parse`; `none` when it throws a `SyntaxError`. -/
  jsonParse : String → Option JVal
  /-- The method `String.prototype.toLowerCase`. -/
  toLowerCase : String → String
  /-- Lower-casing neither adds characters to the empty string nor maps a character away:
  the result is empty exactly for the empty string. -/
  toLowerCase_eq_empty : ∀ s : String, toLowerCase s = "" ↔ s = ""
  /-- The operator `*` on two numbers. -/
  mul : JNum → JNum → JNum
  /-- The operator `+` on two numbers. -/
  add : JNum → JNum → JNum
  /-- The conversion of a number to a string in a template literal. -/
  numToString : JNum → String
  /-- The value of `process.uptime()`. -/
  uptime : JNum
  /-- The value of `(process.memoryUsage().heapUsed / 1024 / 1024).toFixed(2)`. -/
  memoryUsageMb : String

/-- Modelled from the spec: the shape of one record of `data/tariffs.json`, the file
`loadTariffs` reads into `tariffsData`, which is not part of the source.  The spec gives
the record a string `destination`, numeric `cost_per_kg` and `base_cost`, and an `eta_days`
that is passed through unchanged. -/
structure TariffRecord where
  destination : String
  cost_per_kg : JNum
  base_cost : JNum
  eta_days : JVal

/-- The record as a JavaScript object. -/
def TariffRecord.toJVal (t : TariffRecord) : JVal :=
  JVal.obj [("destination", JVal.str t.destination), ("cost_per_kg", JVal.num t.cost_per_kg),
    ("base_cost", JVal.num t.base_cost), ("eta_days", t.eta_days)]

/-- What the `data` and `end` events of the request deliver: the whole text of the body, or
the `error` event with the message of its error. -/
inductive BodyStream where
  | complete (text : String)
  | failed (message : String)

/-- An incoming request: `req.method`, the `pathname` of `url.parse(req.url, true)`
(`null` is `none`) and the body. -/
structure Request where
  method : String
  pathname : Option String
  body : BodyStream

/-- What the server writes: the status code and headers of `res.writeHead`, and the value
given to `JSON.stringify` for `res.end` (`none` for `res.end()`). -/
structure Response where
  status : Nat
  headers : List (String × String)
  body : Option JVal

/-- The value `PORT`. -/
def PORT : Nat := 3030

/-- The value `SERVICE_NAME`. -/
def SERVICE_NAME : String := "LOGISTICS-SERVICE"

/-- The function `sendJSON(res, statusCode, data)`. -/
def sendJSON (statusCode : Nat) (data : JVal) : Response :=
  { status := statusCode
    headers := [("Content-Type", "application/json"),
      ("Access-Control-Allow-Origin", "*"),
      ("Access-Control-Allow-Methods", "GET, POST, OPTIONS"),
      ("Access-Control-Allow-Headers", "Content-Type")]
    body := some data }

/-- The function `parseBody(req)`: the promise resolves with the parsed body, with the empty
object when the body text is empty, and rejects when `JSON.parse` throws or the stream
fails. -/
def parseBody (rt : Runtime) : BodyStream → Except String JVal
  | BodyStream.failed message => Except.error message
  | BodyStream.complete text =>
    if text = "" then Except.ok (JVal.obj [])
    else
      match rt.jsonParse text with
      | some v => Except.ok v
      | none => Except.error "Invalid JSON body"

/-! ## Handlers -/

/-- The function `handleGetTariffs`. -/
def handleGetTariffs (tariffsData : List TariffRecord) : Response :=
  sendJSON 200 (JVal.obj [("success", JVal.bool true),
    ("message", JVal.str "Daftar semua tarif pengiriman"),
    ("total", JVal.num (JNum.fin tariffsData.length)),
    ("data", JVal.arr (tariffsData.map TariffRecord.toJVal))])

/-- The destructuring `const \x7b destination, weight_kg \x7d = body`. -/
def destructureBody (body : JVal) : Except String (JVal × JVal) :=
  match body with
  | JVal.null => Except.error destructureNullMsg
  | JVal.undefined => Except.error destructureUndefinedMsg
  | v => Except.ok (v.prop "destination", v.prop "weight_kg")

/-- The call `tariffsData.find(t => t.destination.toLowerCase() === destination.toLowerCase())`.
The callback runs once per record until it returns true; `destination.toLowerCase()` throws
when `destination` is not a string. -/
def findTariff (rt : Runtime) (destination : JVal) :
    List TariffRecord → Except String (Option TariffRecord)
  | [] => Except.ok none
  | t :: rest =>
    match destination with
    | JVal.str d =>
      if rt.toLowerCase t.destination = rt.toLowerCase d then Except.ok (some t)
      else findTariff rt destination rest
    | _ => Except.error notAFunctionMsg

/-- The body of the 400 answer of the first validation rule. -/
def missingFieldsBody : JVal :=
  JVal.obj [("success", JVal.bool false),
    ("error", JVal.str "Missing required fields: destination and weight_kg are required")]

/-- The body of the 400 answer of the second validation rule. -/
def invalidWeightBody : JVal :=
  JVal.obj [("success", JVal.bool false),
    ("error", JVal.str "weight_kg must be a positive number")]

/-- The body of the 404 answer of `handleCalculate`; `shown` is the interpolated
`destination`. -/
def destinationNotFoundBody (shown : String) (tariffsData : List TariffRecord) : JVal :=
  JVal.obj [("success", JVal.bool false),
    ("error", JVal.str ("Destination \"" ++ shown ++ "\" not found")),
    ("available_destinations", JVal.arr (tariffsData.map fun t => JVal.str t.destination))]

/-- The body of the 200 answer of `handleCalculate` for the record found and the weight. -/
def calculationBody (rt : Runtime) (tariff : TariffRecord) (weight_kg : JNum) : JVal :=
  let total_cost := rt.add (rt.mul tariff.cost_per_kg weight_kg) tariff.base_cost
  JVal.obj [("success", JVal.bool true),
    ("destination", JVal.str tariff.destination),
    ("weight_kg", JVal.num weight_kg),
    ("base_cost", JVal.num tariff.base_cost),
    ("cost_per_kg", JVal.num tariff.cost_per_kg),
    ("total_cost", JVal.num total_cost),
    ("eta", tariff.eta_days),
    ("calculation", JVal.str ("(" ++ rt.numToString tariff.cost_per_kg ++ " x "
      ++ rt.numToString weight_kg ++ ") + " ++ rt.numToString tariff.base_cost ++ " = "
      ++ rt.numToString total_cost))]

/-- The `try` block of `handleCalculate` from the first `logRequest` on, for the two values
the destructuring has bound: the response it sends, or the message of the error it throws. -/
def calculateFields (rt : Runtime) (tariffsData : List TariffRecord)
    (destination weight_kg : JVal) : Except String Response :=
  -- the message of the first `logRequest` interpolates both values
  match destination.toStr rt.numToString with
  | Except.error e => Except.error e
  | Except.ok shown =>
    match weight_kg.toStr rt.numToString with
    | Except.error e => Except.error e
    | Except.ok _ =>
      if !destination.truthy || weight_kg.isUndefined then
        Except.ok (sendJSON 400 missingFieldsBody)
      else
        match weight_kg with
        | JVal.num w =>
          if w.leZero then Except.ok (sendJSON 400 invalidWeightBody)
          else
            match findTariff rt destination tariffsData with
            | Except.error e => Except.error e
            | Except.ok none =>
              Except.ok (sendJSON 404 (destinationNotFoundBody shown tariffsData))
            | Except.ok (some tariff) =>
              Except.ok (sendJSON 200 (calculationBody rt tariff w))
        | _ => Except.ok (sendJSON 400 invalidWeightBody)

/-- The `try` block of `handleCalculate` after `parseBody` has resolved with `body`. -/
def calculate (rt : Runtime) (tariffsData : List TariffRecord) (body : JVal) :
    Except String Response :=
  match destructureBody body with
  | Except.error e => Except.error e
  | Except.ok (destination, weight_kg) => calculateFields rt tariffsData destination weight_kg

/-- The body of the 400 answer of the `catch` block. -/
def caughtBody (message : String) : JVal :=
  JVal.obj [("success", JVal.bool false), ("error", JVal.str message)]

/-- The function `handleCalculate`. -/
def handleCalculate (rt : Runtime) (tariffsData : List TariffRecord) (stream : BodyStream) :
    Response :=
  match parseBody rt stream with
  | Except.error e => sendJSON 400 (caughtBody e)
  | Except.ok body =>
    match calculate rt tariffsData body with
    | Except.error e => sendJSON 400 (caughtBody e)
    | Except.ok response => response

/-- The function `handleHealth`. -/
def handleHealth (rt : Runtime) (tariffsData : List TariffRecord) : Response :=
  sendJSON 200 (JVal.obj [("success", JVal.bool true),
    ("service", JVal.str SERVICE_NAME),
    ("status", JVal.str "healthy"),
    ("uptime", JVal.num rt.uptime),
    ("memory_usage_mb", JVal.str rt.memoryUsageMb),
    ("tariffs_loaded", JVal.num (JNum.fin tariffsData.length))])

/-- The answer to `GET /`. -/
def welcomeResponse : Response :=
  sendJSON 200 (JVal.obj [("success", JVal.bool true),
    ("service", JVal.str SERVICE_NAME),
    ("version", JVal.str "1.0.0"),
    ("endpoints", JVal.obj [("GET /", JVal.str "Welcome & API info"),
      ("GET /health", JVal.str "Health check"),
      ("GET /tariffs", JVal.str "Get all tariffs"),
      ("POST /calculate",
        JVal.str "Calculate shipping cost (body: \x7bdestination, weight_kg\x7d)")])])

/-- The answer of the last branch of the dispatch. -/
def endpointNotFoundResponse : Response :=
  sendJSON 404 (JVal.obj [("success", JVal.bool false),
    ("error", JVal.str "Endpoint not found"),
    ("available_endpoints", JVal.arr [JVal.str "GET /", JVal.str "GET /health",
      JVal.str "GET /tariffs", JVal.str "POST /calculate"])])

/-- The answer to the CORS preflight: `res.writeHead(204, ...)` and `res.end()`. -/
def preflightResponse : Response :=
  { status := 204
    headers := [("Access-Control-Allow-Origin", "*"),
      ("Access-Control-Allow-Methods", "GET, POST, OPTIONS"),
      ("Access-Control-Allow-Headers", "Content-Type")]
    body := none }

/-- The callback given to `http.createServer`. -/
def server (rt : Runtime) (tariffsData : List TariffRecord) (req : Request) : Response :=
  if req.method = "OPTIONS" then preflightResponse
  else if req.pathname = some "/tariffs" ∧ req.method = "GET" then
    handleGetTariffs tariffsData
  else if req.pathname = some "/calculate" ∧ req.method = "POST" then
    handleCalculate rt tariffsData req.body
  else if req.pathname = some "/health" ∧ req.method = "GET" then
    handleHealth rt tariffsData
  else if req.pathname = some "/" ∧ req.method = "GET" then welcomeResponse
  else endpointNotFoundResponse

/-! ## A runtime for evaluating the handlers on concrete requests -/

/-- Lower-casing of the ASCII letters, character by character. -/
def asciiLower (s : String) : String := String.mk (s.data.map Char.toLower)

/-- The product of two numbers when no rounding is needed. -/
def exactMul : JNum → JNum → JNum
  | JNum.nan, _ => JNum.nan
  | _, JNum.nan => JNum.nan
  | JNum.fin a, JNum.fin b => JNum.fin (a * b)
  | JNum.fin a, JNum.posInf =>
    if a = 0 then JNum.nan else if 0 < a then JNum.posInf else JNum.negInf
  | JNum.fin a, JNum.negInf =>
    if a = 0 then JNum.nan else if 0 < a then JNum.negInf else JNum.posInf
  | JNum.posInf, JNum.fin b =>
    if b = 0 then JNum.nan else if 0 < b then JNum.posInf else JNum.negInf
  | JNum.negInf, JNum.fin b =>
    if b = 0 then JNum.nan else if 0 < b then JNum.negInf else JNum.posInf
  | JNum.posInf, JNum.posInf => JNum.posInf
  | JNum.negInf, JNum.negInf => JNum.posInf
  | JNum.posInf, JNum.negInf => JNum.negInf
  | JNum.negInf, JNum.posInf => JNum.negInf

/-- The sum of two numbers when no rounding is needed. -/
def exactAdd : JNum → JNum → JNum
  | JNum.nan, _ => JNum.nan
  | _, JNum.nan => JNum.nan
  | JNum.fin a, JNum.fin b => JNum.fin (a + b)
  | JNum.posInf, JNum.negInf => JNum.nan
  | JNum.negInf, JNum.posInf => JNum.nan
  | JNum.posInf, _ => JNum.posInf
  | _, JNum.posInf => JNum.posInf
  | JNum.negInf, _ => JNum.negInf
  | _, JNum.negInf => JNum.negInf

/-- The decimal string of an integral number and the names of the other values; a finite
value that is not integral is shown as a fraction (JavaScript prints a decimal expansion). -/
def showNum : JNum → String
  | JNum.fin q => if q.den = 1 then toString q.num else toString q.num ++ "/" ++ toString q.den
  | JNum.posInf => "Infinity"
  | JNum.negInf => "-Infinity"
  | JNum.nan => "NaN"

/-- The result of `JSON.parse` on the request texts used in the examples of this file; every
other text is rejected, so the function stands for `JSON.parse` on these texts and on texts
that are not JSON. -/
def exampleParse (text : String) : Option JVal :=
  if text = "\x7b\"destination\":\"jakarta\",\"weight_kg\":2\x7d" then
    some (JVal.obj [("destination", JVal.str "jakarta"), ("weight_kg", JVal.num (JNum.fin 2))])
  else if text = "\x7b\"destination\":\"JAKARTA\",\"weight_kg\":2\x7d" then
    some (JVal.obj [("destination", JVal.str "JAKARTA"), ("weight_kg", JVal.num (JNum.fin 2))])
  else if text = "\x7b\"destination\":\"Jakarta\",\"weight_kg\":1e999\x7d" then
    some (JVal.obj [("destination", JVal.str "Jakarta"), ("weight_kg", JVal.num JNum.posInf)])
  else if text = "\x7b\"destination\":\"Atlantis\",\"weight_kg\":1\x7d" then
    some (JVal.obj [("destination", JVal.str "Atlantis"), ("weight_kg", JVal.num (JNum.fin 1))])
  else if text = "\x7b\"destination\":\"\",\"weight_kg\":1\x7d" then
    some (JVal.obj [("destination", JVal.str ""), ("weight_kg", JVal.num (JNum.fin 1))])
  else if text = "\x7b\"destination\":\"\",\"weight_kg\":0\x7d" then
    some (JVal.obj [("destination", JVal.str ""), ("weight_kg", JVal.num (JNum.fin 0))])
  else if text = "\x7b\"destination\":\"Jakarta\",\"weight_kg\":\"10\"\x7d" then
    some (JVal.obj [("destination", JVal.str "Jakarta"), ("weight_kg", JVal.str "10")])
  else if text = "\x7b\"destination\":5,\"weight_kg\":0\x7d" then
    some (JVal.obj [("destination", JVal.num (JNum.fin 5)), ("weight_kg", JVal.num (JNum.fin 0))])
  else if text = "\x7b\"destination\":5,\"weight_kg\":1\x7d" then
    some (JVal.obj [("destination", JVal.num (JNum.fin 5)), ("weight_kg", JVal.num (JNum.fin 1))])
  else if text = "\x7b\"weight_kg\":\x7b\"toString\":1\x7d\x7d" then
    some (JVal.obj [("weight_kg", JVal.obj [("toString", JVal.num (JNum.fin 1))])])
  else if text = "\x7b\"weight_kg\":3\x7d" then
    some (JVal.obj [("weight_kg", JVal.num (JNum.fin 3))])
  else if text = "null" then some JVal.null
  else none

/-- A runtime for the examples: ASCII lower-casing, arithmetic without rounding, a process
that has been up for one second. -/
def exampleRuntime : Runtime where
  jsonParse := exampleParse
  toLowerCase := asciiLower
  toLowerCase_eq_empty := by
    intro s
    constructor
    · intro h
      cases s with
      | mk data =>
        have h2 : data.map Char.toLower = [] := congrArg String.data h
        have h3 : data = [] := List.map_eq_nil_iff.mp h2
        rw [h3]
    · intro h
      rw [h]
      rfl
  mul := exactMul
  add := exactAdd
  numToString := showNum
  uptime := JNum.fin 1
  memoryUsageMb := "5.00"

/-- The record of the example of the spec. -/
def jakarta : TariffRecord :=
  { destination := "Jakarta", cost_per_kg := JNum.fin 5000, base_cost := JNum.fin 10000,
    eta_days := JVal.num (JNum.fin 2) }

/-- The table of the example of the spec. -/
def jakartaTable : List TariffRecord := [jakarta]

/-- A record whose destination is the empty string. -/
def blankRecord : TariffRecord :=
  { destination := "", cost_per_kg := JNum.fin 1000, base_cost := JNum.fin 500,
    eta_days := JVal.num (JNum.fin 1) }

/-! ## Lemmas on the steps of `handleCalculate` -/

theorem destructureBody_ok (body : JVal) (hnull : body ≠ JVal.null)
    (hundef : body ≠ JVal.undefined) :
    destructureBody body = Except.ok (body.prop "destination", body.prop "weight_kg") := by
  cases body <;> first | rfl | contradiction

theorem prop_ne_undefined (body : JVal) (key : String) (h : body.prop key ≠ JVal.undefined) :
    body ≠ JVal.null ∧ body ≠ JVal.undefined := by
  cases body <;> simp [JVal.prop] at h ⊢

theorem handleCalculate_of_parse (rt : Runtime) (tariffsData : List TariffRecord)
    (stream : BodyStream) (body : JVal) (hparse : parseBody rt stream = Except.ok body) :
    handleCalculate rt tariffsData stream =
      match calculate rt tariffsData body with
      | Except.error e => sendJSON 400 (caughtBody e)
      | Except.ok response => response := by
  simp only [handleCalculate, hparse]

theorem findTariff_first (rt : Runtime) (D : String) (r : TariffRecord)
    (pre post : List TariffRecord)
    (hpre : ∀ t ∈ pre, rt.toLowerCase t.destination ≠ rt.toLowerCase D)
    (hr : rt.toLowerCase r.destination = rt.toLowerCase D) :
    findTariff rt (JVal.str D) (pre ++ r :: post) = Except.ok (some r) := by
  induction pre with
  | nil => simp [findTariff, hr]
  | cons t rest ih =>
    have ht : rt.toLowerCase t.destination ≠ rt.toLowerCase D := hpre t (List.mem_cons_self _ _)
    have hrest : ∀ u ∈ rest, rt.toLowerCase u.destination ≠ rt.toLowerCase D :=
      fun u hu => hpre u (List.mem_cons_of_mem _ hu)
    simp [findTariff, ht, ih hrest]

theorem findTariff_none (rt : Runtime) (D : String) (table : List TariffRecord)
    (h : ∀ t ∈ table, rt.toLowerCase t.destination ≠ rt.toLowerCase D) :
    findTariff rt (JVal.str D) table = Except.ok none := by
  induction table with
  | nil => rfl
  | cons t rest ih =>
    have ht : rt.toLowerCase t.destination ≠ rt.toLowerCase D := h t (List.mem_cons_self _ _)
    have hrest : ∀ u ∈ rest, rt.toLowerCase u.destination ≠ rt.toLowerCase D :=
      fun u hu => h u (List.mem_cons_of_mem _ hu)
    simp [findTariff, ht, ih hrest]

theorem exists_first_match (rt : Runtime) (D : String) (table : List TariffRecord)
    (h : ∃ t ∈ table, rt.toLowerCase t.destination = rt.toLowerCase D) :
    ∃ pre r post, table = pre ++ r :: post ∧
      (∀ t ∈ pre, rt.toLowerCase t.destination ≠ rt.toLowerCase D) ∧
      rt.toLowerCase r.destination = rt.toLowerCase D := by
  induction table with
  | nil =>
    obtain ⟨t, ht, _⟩ := h
    cases ht
  | cons u rest ih =>
    by_cases hu : rt.toLowerCase u.destination = rt.toLowerCase D
    · exact ⟨[], u, rest, rfl, by simp, hu⟩
    · obtain ⟨t, ht, hmatch⟩ := h
      have hrest : ∃ t ∈ rest, rt.toLowerCase t.destination = rt.toLowerCase D := by
        rcases List.mem_cons.mp ht with heq | hmem
        · subst heq
          exact absurd hmatch hu
        · exact ⟨t, hmem, hmatch⟩
      obtain ⟨pre, r, post, htab, hpre, hr⟩ := ih hrest
      refine ⟨u :: pre, r, post, by simp [htab], ?_, hr⟩
      intro t ht2
      rcases List.mem_cons.mp ht2 with heq | hmem
      · subst heq
        exact hu
      · exact hpre t hmem

theorem findTariff_str_mem (rt : Runtime) (D : String) (table : List TariffRecord) :
    ∃ found, findTariff rt (JVal.str D) table = Except.ok found ∧
      ∀ t, found = some t → t ∈ table := by
  induction table with
  | nil => exact ⟨none, rfl, by simp⟩
  | cons u rest ih =>
    by_cases hu : rt.toLowerCase u.destination = rt.toLowerCase D
    · exact ⟨some u, by simp [findTariff, hu], by simp⟩
    · obtain ⟨found, hfound, hmem⟩ := ih
      refine ⟨found, by simp [findTariff, hu, hfound], ?_⟩
      intro t ht
      exact List.mem_cons_of_mem _ (hmem t ht)

theorem findTariff_lower_congr (rt : Runtime) (D1 D2 : String) (table : List TariffRecord)
    (h : rt.toLowerCase D1 = rt.toLowerCase D2) :
    findTariff rt (JVal.str D1) table = findTariff rt (JVal.str D2) table := by
  induction table with
  | nil => rfl
  | cons u rest ih => simp [findTariff, h, ih]

theorem leZero_of_gtZero (W : JNum) (h : W.gtZero = true) : W.leZero = false := by
  cases W with
  | fin q =>
    simp only [JNum.gtZero, decide_eq_true_eq] at h
    simp only [JNum.leZero, decide_eq_false_iff_not, not_le]
    exact h
  | posInf => rfl
  | negInf => simp [JNum.gtZero] at h
  | nan => simp [JNum.gtZero] at h

theorem gtZero_of_leZero_false (W : JNum) (h : W.leZero = false) (hnan : W ≠ JNum.nan) :
    W.gtZero = true := by
  cases W with
  | fin q =>
    simp only [JNum.leZero, decide_eq_false_iff_not, not_le] at h
    simp only [JNum.gtZero, decide_eq_true_eq]
    exact h
  | posInf => rfl
  | negInf => simp [JNum.leZero] at h
  | nan => exact absurd rfl hnan

/-- The try block on a body whose destination is a non-empty string and whose weight is a
number that is not `<= 0`: the answer is decided by the lookup alone. -/
theorem calculate_valid (rt : Runtime) (table : List TariffRecord) (body : JVal)
    (D : String) (W : JNum)
    (hdest : body.prop "destination" = JVal.str D)
    (hweight : body.prop "weight_kg" = JVal.num W)
    (hD : D ≠ "") (hW : W.leZero = false) :
    calculate rt table body =
      match findTariff rt (JVal.str D) table with
      | Except.error e => Except.error e
      | Except.ok none => Except.ok (sendJSON 404 (destinationNotFoundBody D table))
      | Except.ok (some tariff) => Except.ok (sendJSON 200 (calculationBody rt tariff W)) := by
  have hne : body.prop "destination" ≠ JVal.undefined := by simp [hdest]
  obtain ⟨hnull, hundef⟩ := prop_ne_undefined body "destination" hne
  simp [calculate, calculateFields, destructureBody_ok body hnull hundef, hdest, hweight,
    JVal.toStr, JVal.truthy, JVal.isUndefined, hD, hW]

/-! ## The calculation: first matching record, unknown destination -/

/-- C1, as stated, fails: with a record whose destination is the empty string in the table,
the body with destination `""` and weight 1 names a destination that equals a record's
destination, yet the first rule answers it 400 (an empty string counts as missing). -/
theorem handleCalculate_blank_destination_is_missing :
    (∃ t ∈ [blankRecord],
      exampleRuntime.toLowerCase t.destination = exampleRuntime.toLowerCase "") ∧
    JNum.gtZero (JNum.fin 1) = true ∧
    parseBody exampleRuntime (BodyStream.complete "\x7b\"destination\":\"\",\"weight_kg\":1\x7d") =
      Except.ok (JVal.obj [("destination", JVal.str ""), ("weight_kg", JVal.num (JNum.fin 1))]) ∧
    handleCalculate exampleRuntime [blankRecord]
      (BodyStream.complete "\x7b\"destination\":\"\",\"weight_kg\":1\x7d") =
        sendJSON 400 missingFieldsBody ∧
    (handleCalculate exampleRuntime [blankRecord]
      (BodyStream.complete "\x7b\"destination\":\"\",\"weight_kg\":1\x7d")).status ≠ 200 := by
  refine ⟨⟨blankRecord, by simp, rfl⟩, by decide, rfl, rfl, by decide⟩

/-- C1 (amended): for every table, every non-empty destination string `D` that equals the
destination of some record up to case, and every numeric weight `W > 0`, `handleCalculate`
on a body with that destination and weight answers 200 with the success body built from the
first record in table order that matches `D`: `success` true, the record's `destination`,
`base_cost`, `cost_per_kg` and `eta_days`, and `total_cost = cost_per_kg * W + base_cost`
with nothing applied to the result. -/
theorem handleCalculate_first_matching_record (rt : Runtime) (table : List TariffRecord)
    (stream : BodyStream) (body : JVal) (D : String) (W : JNum)
    (hparse : parseBody rt stream = Except.ok body)
    (hdest : body.prop "destination" = JVal.str D)
    (hweight : body.prop "weight_kg" = JVal.num W)
    (hD : D ≠ "") (hW : W.gtZero = true)
    (hmatch : ∃ t ∈ table, rt.toLowerCase t.destination = rt.toLowerCase D) :
    ∃ pre r post, table = pre ++ r :: post ∧
      (∀ t ∈ pre, rt.toLowerCase t.destination ≠ rt.toLowerCase D) ∧
      rt.toLowerCase r.destination = rt.toLowerCase D ∧
      handleCalculate rt table stream = sendJSON 200 (calculationBody rt r W) ∧
      (sendJSON 200 (calculationBody rt r W)).status = 200 ∧
      (calculationBody rt r W).prop "success" = JVal.bool true ∧
      (calculationBody rt r W).prop "total_cost" =
        JVal.num (rt.add (rt.mul r.cost_per_kg W) r.base_cost) ∧
      (calculationBody rt r W).prop "destination" = JVal.str r.destination ∧
      (calculationBody rt r W).prop "base_cost" = JVal.num r.base_cost ∧
      (calculationBody rt r W).prop "cost_per_kg" = JVal.num r.cost_per_kg ∧
      (calculationBody rt r W).prop "eta" = r.eta_days := by
  obtain ⟨pre, r, post, htab, hpre, hr⟩ := exists_first_match rt D table hmatch
  refine ⟨pre, r, post, htab, hpre, hr, ?_, rfl, rfl, rfl, rfl, rfl, rfl, rfl⟩
  rw [handleCalculate_of_parse rt table stream body hparse,
    calculate_valid rt table body D W hdest hweight hD (leZero_of_gtZero W hW), htab,
    findTariff_first rt D r pre post hpre hr]

/-- The example of the spec: the table holds Jakarta (5000 per kg, base 10000, 2 days) and
the request asks for `jakarta` with 2 kg. -/
theorem handleCalculate_first_matching_record_witness :
    ∃ pre r post, jakartaTable = pre ++ r :: post ∧
      (∀ t ∈ pre, exampleRuntime.toLowerCase t.destination ≠ exampleRuntime.toLowerCase "jakarta") ∧
      exampleRuntime.toLowerCase r.destination = exampleRuntime.toLowerCase "jakarta" ∧
      handleCalculate exampleRuntime jakartaTable
          (BodyStream.complete "\x7b\"destination\":\"jakarta\",\"weight_kg\":2\x7d") =
        sendJSON 200 (calculationBody exampleRuntime r (JNum.fin 2)) ∧
      (sendJSON 200 (calculationBody exampleRuntime r (JNum.fin 2))).status = 200 ∧
      (calculationBody exampleRuntime r (JNum.fin 2)).prop "success" = JVal.bool true ∧
      (calculationBody exampleRuntime r (JNum.fin 2)).prop "total_cost" =
        JVal.num (exampleRuntime.add (exampleRuntime.mul r.cost_per_kg (JNum.fin 2)) r.base_cost) ∧
      (calculationBody exampleRuntime r (JNum.fin 2)).prop "destination" = JVal.str r.destination ∧
      (calculationBody exampleRuntime r (JNum.fin 2)).prop "base_cost" = JVal.num r.base_cost ∧
      (calculationBody exampleRuntime r (JNum.fin 2)).prop "cost_per_kg" = JVal.num r.cost_per_kg ∧
      (calculationBody exampleRuntime r (JNum.fin 2)).prop "eta" = r.eta_days :=
  handleCalculate_first_matching_record exampleRuntime jakartaTable
    (BodyStream.complete "\x7b\"destination\":\"jakarta\",\"weight_kg\":2\x7d")
    (JVal.obj [("destination", JVal.str "jakarta"), ("weight_kg", JVal.num (JNum.fin 2))])
    "jakarta" (JNum.fin 2) rfl rfl rfl (by decide) (by decide)
    ⟨jakarta, by simp [jakartaTable], rfl⟩

/-- The example of the spec, evaluated: 5000 * 2 + 10000 = 20000 and `eta` 2. -/
theorem handleCalculate_jakarta_example :
    handleCalculate exampleRuntime jakartaTable
        (BodyStream.complete "\x7b\"destination\":\"jakarta\",\"weight_kg\":2\x7d") =
      sendJSON 200 (calculationBody exampleRuntime jakarta (JNum.fin 2)) ∧
    (calculationBody exampleRuntime jakarta (JNum.fin 2)).prop "total_cost" =
      JVal.num (JNum.fin 20000) ∧
    (calculationBody exampleRuntime jakarta (JNum.fin 2)).prop "eta" =
      JVal.num (JNum.fin 2) := by
  refine ⟨rfl, ?_, rfl⟩
  show JVal.num (exactAdd (exactMul (JNum.fin 5000) (JNum.fin 2)) (JNum.fin 10000)) = _
  norm_num [exactAdd, exactMul]

/-- C5, as stated, fails: the empty string matches no record of the Jakarta table, and the
body with destination `""` and weight 1 is answered 400 by the first rule, not 404. -/
theorem handleCalculate_blank_destination_not_404 :
    (∀ t ∈ jakartaTable,
      exampleRuntime.toLowerCase t.destination ≠ exampleRuntime.toLowerCase "") ∧
    JNum.gtZero (JNum.fin 1) = true ∧
    parseBody exampleRuntime (BodyStream.complete "\x7b\"destination\":\"\",\"weight_kg\":1\x7d") =
      Except.ok (JVal.obj [("destination", JVal.str ""), ("weight_kg", JVal.num (JNum.fin 1))]) ∧
    handleCalculate exampleRuntime jakartaTable
      (BodyStream.complete "\x7b\"destination\":\"\",\"weight_kg\":1\x7d") =
        sendJSON 400 missingFieldsBody ∧
    (handleCalculate exampleRuntime jakartaTable
      (BodyStream.complete "\x7b\"destination\":\"\",\"weight_kg\":1\x7d")).status ≠ 404 := by
  refine ⟨?_, by decide, rfl, rfl, by decide⟩
  intro t ht
  simp only [jakartaTable, List.mem_singleton] at ht
  subst ht
  decide

/-- C5 (amended): for every table, every non-empty destination string `D` that matches no
record up to case, and every numeric weight `W > 0`, `handleCalculate` answers 404 with
`success` false and `available_destinations` equal to the destinations of all records, in
table order and as many as the table has records. -/
theorem handleCalculate_unknown_destination (rt : Runtime) (table : List TariffRecord)
    (stream : BodyStream) (body : JVal) (D : String) (W : JNum)
    (hparse : parseBody rt stream = Except.ok body)
    (hdest : body.prop "destination" = JVal.str D)
    (hweight : body.prop "weight_kg" = JVal.num W)
    (hD : D ≠ "") (hW : W.gtZero = true)
    (hnone : ∀ t ∈ table, rt.toLowerCase t.destination ≠ rt.toLowerCase D) :
    handleCalculate rt table stream = sendJSON 404 (destinationNotFoundBody D table) ∧
    (sendJSON 404 (destinationNotFoundBody D table)).status = 404 ∧
    (destinationNotFoundBody D table).prop "success" = JVal.bool false ∧
    (destinationNotFoundBody D table).prop "available_destinations" =
      JVal.arr (table.map fun t => JVal.str t.destination) ∧
    (table.map fun t => JVal.str t.destination).length = table.length := by
  refine ⟨?_, rfl, rfl, rfl, List.length_map _ _⟩
  rw [handleCalculate_of_parse rt table stream body hparse,
    calculate_valid rt table body D W hdest hweight hD (leZero_of_gtZero W hW),
    findTariff_none rt D table hnone]

/-- The request for Atlantis against the Jakarta table. -/
theorem handleCalculate_unknown_destination_witness :
    handleCalculate exampleRuntime jakartaTable
        (BodyStream.complete "\x7b\"destination\":\"Atlantis\",\"weight_kg\":1\x7d") =
      sendJSON 404 (destinationNotFoundBody "Atlantis" jakartaTable) ∧
    (sendJSON 404 (destinationNotFoundBody "Atlantis" jakartaTable)).status = 404 ∧
    (destinationNotFoundBody "Atlantis" jakartaTable).prop "success" = JVal.bool false ∧
    (destinationNotFoundBody "Atlantis" jakartaTable).prop "available_destinations" =
      JVal.arr (jakartaTable.map fun t => JVal.str t.destination) ∧
    (jakartaTable.map fun t => JVal.str t.destination).length = jakartaTable.length :=
  handleCalculate_unknown_destination exampleRuntime jakartaTable
    (BodyStream.complete "\x7b\"destination\":\"Atlantis\",\"weight_kg\":1\x7d")
    (JVal.obj [("destination", JVal.str "Atlantis"), ("weight_kg", JVal.num (JNum.fin 1))])
    "Atlantis" (JNum.fin 1) rfl rfl rfl (by decide) (by decide)
    (by
      intro t ht
      simp only [jakartaTable, List.mem_singleton] at ht
      subst ht
      decide)

/-! ## Case-insensitive matching -/

theorem calculate_of_props (rt : Runtime) (table : List TariffRecord) (body d w : JVal)
    (hnull : body ≠ JVal.null) (hundef : body ≠ JVal.undefined)
    (hd : body.prop "destination" = d) (hw : body.prop "weight_kg" = w) :
    calculate rt table body = calculateFields rt table d w := by
  simp only [calculate, destructureBody_ok body hnull hundef, hd, hw]

theorem toStr_str (f : JNum → String) (s : String) :
    (JVal.str s).toStr f = Except.ok s := rfl

theorem toStr_num (f : JNum → String) (x : JNum) :
    (JVal.num x).toStr f = Except.ok (f x) := rfl

theorem toStr_undefined (f : JNum → String) :
    JVal.undefined.toStr f = Except.ok "undefined" := rfl

/-- The try block once both interpolations of the first log message have succeeded. -/
theorem calculateFields_of_shown (rt : Runtime) (table : List TariffRecord) (d w : JVal)
    (shown shownW : String)
    (hds : d.toStr rt.numToString = Except.ok shown)
    (hws : w.toStr rt.numToString = Except.ok shownW) :
    calculateFields rt table d w =
      if !d.truthy || w.isUndefined then Except.ok (sendJSON 400 missingFieldsBody)
      else
        match w with
        | JVal.num W =>
          if W.leZero then Except.ok (sendJSON 400 invalidWeightBody)
          else
            match findTariff rt d table with
            | Except.error e => Except.error e
            | Except.ok none => Except.ok (sendJSON 404 (destinationNotFoundBody shown table))
            | Except.ok (some tariff) => Except.ok (sendJSON 200 (calculationBody rt tariff W))
        | _ => Except.ok (sendJSON 400 invalidWeightBody) := by
  simp only [calculateFields, hds, hws]

/-- The try block when the interpolation of `weight_kg` throws. -/
theorem calculateFields_weight_throws (rt : Runtime) (table : List TariffRecord) (d w : JVal)
    (shown e : String)
    (hds : d.toStr rt.numToString = Except.ok shown)
    (hws : w.toStr rt.numToString = Except.error e) :
    calculateFields rt table d w = Except.error e := by
  simp only [calculateFields, hds, hws]

/-- The first rule: a falsy destination or an absent weight. -/
theorem calculateFields_missing (rt : Runtime) (table : List TariffRecord) (d w : JVal)
    (shown shownW : String)
    (hds : d.toStr rt.numToString = Except.ok shown)
    (hws : w.toStr rt.numToString = Except.ok shownW)
    (h : d.truthy = false ∨ w.isUndefined = true) :
    calculateFields rt table d w = Except.ok (sendJSON 400 missingFieldsBody) := by
  rw [calculateFields_of_shown rt table d w shown shownW hds hws]
  rcases h with h | h <;> simp [h]

/-- The second rule: a truthy destination and a present weight that is not a number, or is
a number `<= 0`. -/
theorem calculateFields_invalid (rt : Runtime) (table : List TariffRecord) (d w : JVal)
    (shown shownW : String)
    (hds : d.toStr rt.numToString = Except.ok shown)
    (hws : w.toStr rt.numToString = Except.ok shownW)
    (htruthy : d.truthy = true) (hpresent : w.isUndefined = false)
    (hbad : ∀ W, w = JVal.num W → W.leZero = true) :
    calculateFields rt table d w = Except.ok (sendJSON 400 invalidWeightBody) := by
  rw [calculateFields_of_shown rt table d w shown shownW hds hws]
  simp only [htruthy, hpresent, Bool.not_true, Bool.or_self, Bool.false_eq_true, if_false]
  cases w with
  | num W => simp [hbad W rfl]
  | undefined => rfl
  | null => rfl
  | bool b => rfl
  | str s => rfl
  | arr items => rfl
  | obj props => rfl

/-- Past both rules: a truthy destination and a number that is not `<= 0`. -/
theorem calculateFields_lookup (rt : Runtime) (table : List TariffRecord) (d : JVal)
    (W : JNum) (shown : String)
    (hds : d.toStr rt.numToString = Except.ok shown)
    (htruthy : d.truthy = true) (hW : W.leZero = false) :
    calculateFields rt table d (JVal.num W) =
      match findTariff rt d table with
      | Except.error e => Except.error e
      | Except.ok none => Except.ok (sendJSON 404 (destinationNotFoundBody shown table))
      | Except.ok (some tariff) => Except.ok (sendJSON 200 (calculationBody rt tariff W)) := by
  rw [calculateFields_of_shown rt table d _ shown _ hds (toStr_num _ W)]
  simp [htruthy, hW, JVal.isUndefined]

theorem calculateFields_lower_congr (rt : Runtime) (table : List TariffRecord)
    (D1 D2 : String) (w : JVal) (hlow : rt.toLowerCase D1 = rt.toLowerCase D2) :
    (∃ e, calculateFields rt table (JVal.str D1) w = Except.error e ∧
      calculateFields rt table (JVal.str D2) w = Except.error e) ∨
    (∃ r, calculateFields rt table (JVal.str D1) w = Except.ok r ∧
      calculateFields rt table (JVal.str D2) w = Except.ok r) ∨
    (calculateFields rt table (JVal.str D1) w =
        Except.ok (sendJSON 404 (destinationNotFoundBody D1 table)) ∧
      calculateFields rt table (JVal.str D2) w =
        Except.ok (sendJSON 404 (destinationNotFoundBody D2 table))) := by
  have hempty : D1 = "" ↔ D2 = "" := by
    rw [← rt.toLowerCase_eq_empty D1, ← rt.toLowerCase_eq_empty D2, hlow]
  have hfind := findTariff_lower_congr rt D1 D2 table hlow
  cases hws : w.toStr rt.numToString with
  | error e =>
    left
    exact ⟨e, calculateFields_weight_throws rt table _ w D1 e (toStr_str _ D1) hws,
      calculateFields_weight_throws rt table _ w D2 e (toStr_str _ D2) hws⟩
  | ok shownW =>
    rw [calculateFields_of_shown rt table _ w D1 shownW (toStr_str _ D1) hws,
      calculateFields_of_shown rt table _ w D2 shownW (toStr_str _ D2) hws, hfind]
    by_cases h1 : D1 = ""
    · have h2 : D2 = "" := hempty.mp h1
      right; left
      exact ⟨sendJSON 400 missingFieldsBody, by simp [JVal.truthy, h1], by simp [JVal.truthy, h2]⟩
    · have h2 : D2 ≠ "" := fun h => h1 (hempty.mpr h)
      cases w with
      | num W =>
        by_cases hle : W.leZero = true
        · right; left
          exact ⟨sendJSON 400 invalidWeightBody,
            by simp [JVal.truthy, JVal.isUndefined, h1, hle],
            by simp [JVal.truthy, JVal.isUndefined, h2, hle]⟩
        · cases hf : findTariff rt (JVal.str D2) table with
          | error e =>
            left
            exact ⟨e, by simp [JVal.truthy, JVal.isUndefined, h1, hle],
              by simp [JVal.truthy, JVal.isUndefined, h2, hle]⟩
          | ok found =>
            cases found with
            | none =>
              right; right
              exact ⟨by simp [JVal.truthy, JVal.isUndefined, h1, hle],
                by simp [JVal.truthy, JVal.isUndefined, h2, hle]⟩
            | some t =>
              right; left
              exact ⟨sendJSON 200 (calculationBody rt t W),
                by simp [JVal.truthy, JVal.isUndefined, h1, hle],
                by simp [JVal.truthy, JVal.isUndefined, h2, hle]⟩
      | undefined =>
        right; left
        exact ⟨sendJSON 400 missingFieldsBody, by simp [JVal.isUndefined],
          by simp [JVal.isUndefined]⟩
      | null =>
        right; left
        exact ⟨sendJSON 400 invalidWeightBody, by simp [JVal.truthy, JVal.isUndefined, h1],
          by simp [JVal.truthy, JVal.isUndefined, h2]⟩
      | bool b =>
        right; left
        exact ⟨sendJSON 400 invalidWeightBody, by simp [JVal.truthy, JVal.isUndefined, h1],
          by simp [JVal.truthy, JVal.isUndefined, h2]⟩
      | str s =>
        right; left
        exact ⟨sendJSON 400 invalidWeightBody, by simp [JVal.truthy, JVal.isUndefined, h1],
          by simp [JVal.truthy, JVal.isUndefined, h2]⟩
      | arr items =>
        right; left
        exact ⟨sendJSON 400 invalidWeightBody, by simp [JVal.truthy, JVal.isUndefined, h1],
          by simp [JVal.truthy, JVal.isUndefined, h2]⟩
      | obj props =>
        right; left
        exact ⟨sendJSON 400 invalidWeightBody, by simp [JVal.truthy, JVal.isUndefined, h1],
          by simp [JVal.truthy, JVal.isUndefined, h2]⟩

/-- C2: destination matching in `handleCalculate` does not see letter case.  For every
table, every `weight_kg` value `w` (absent included) and every two destination strings with
the same lower-casing, the responses to the two bodies have the same status, and when that
status is 200 they are the same response (same body, field by field). -/
theorem handleCalculate_case_insensitive (rt : Runtime) (table : List TariffRecord)
    (stream1 stream2 : BodyStream) (body1 body2 : JVal) (D1 D2 : String) (w : JVal)
    (hparse1 : parseBody rt stream1 = Except.ok body1)
    (hparse2 : parseBody rt stream2 = Except.ok body2)
    (hdest1 : body1.prop "destination" = JVal.str D1)
    (hdest2 : body2.prop "destination" = JVal.str D2)
    (hweight1 : body1.prop "weight_kg" = w)
    (hweight2 : body2.prop "weight_kg" = w)
    (hlow : rt.toLowerCase D1 = rt.toLowerCase D2) :
    (handleCalculate rt table stream1).status = (handleCalculate rt table stream2).status ∧
    ((handleCalculate rt table stream1).status = 200 →
      handleCalculate rt table stream1 = handleCalculate rt table stream2) := by
  have hne1 : body1.prop "destination" ≠ JVal.undefined := by simp [hdest1]
  have hne2 : body2.prop "destination" ≠ JVal.undefined := by simp [hdest2]
  obtain ⟨hnull1, hundef1⟩ := prop_ne_undefined body1 "destination" hne1
  obtain ⟨hnull2, hundef2⟩ := prop_ne_undefined body2 "destination" hne2
  rw [handleCalculate_of_parse rt table stream1 body1 hparse1,
    handleCalculate_of_parse rt table stream2 body2 hparse2,
    calculate_of_props rt table body1 _ _ hnull1 hundef1 hdest1 hweight1,
    calculate_of_props rt table body2 _ _ hnull2 hundef2 hdest2 hweight2]
  rcases calculateFields_lower_congr rt table D1 D2 w hlow with
    ⟨e, he1, he2⟩ | ⟨r, hr1, hr2⟩ | ⟨hn1, hn2⟩
  · simp [he1, he2]
  · simp [hr1, hr2]
  · simp [hn1, hn2, sendJSON]

/-- The two spellings `jakarta` and `JAKARTA` against the Jakarta table. -/
theorem handleCalculate_case_insensitive_witness :
    (handleCalculate exampleRuntime jakartaTable
        (BodyStream.complete "\x7b\"destination\":\"jakarta\",\"weight_kg\":2\x7d")).status =
      (handleCalculate exampleRuntime jakartaTable
        (BodyStream.complete "\x7b\"destination\":\"JAKARTA\",\"weight_kg\":2\x7d")).status ∧
    ((handleCalculate exampleRuntime jakartaTable
        (BodyStream.complete "\x7b\"destination\":\"jakarta\",\"weight_kg\":2\x7d")).status = 200 →
      handleCalculate exampleRuntime jakartaTable
          (BodyStream.complete "\x7b\"destination\":\"jakarta\",\"weight_kg\":2\x7d") =
        handleCalculate exampleRuntime jakartaTable
          (BodyStream.complete "\x7b\"destination\":\"JAKARTA\",\"weight_kg\":2\x7d")) :=
  handleCalculate_case_insensitive exampleRuntime jakartaTable
    (BodyStream.complete "\x7b\"destination\":\"jakarta\",\"weight_kg\":2\x7d")
    (BodyStream.complete "\x7b\"destination\":\"JAKARTA\",\"weight_kg\":2\x7d")
    (JVal.obj [("destination", JVal.str "jakarta"), ("weight_kg", JVal.num (JNum.fin 2))])
    (JVal.obj [("destination", JVal.str "JAKARTA"), ("weight_kg", JVal.num (JNum.fin 2))])
    "jakarta" "JAKARTA" (JVal.num (JNum.fin 2)) rfl rfl rfl rfl rfl rfl (by decide)

/-! ## The validation rules -/

theorem handleCalculate_of_fields (rt : Runtime) (table : List TariffRecord)
    (stream : BodyStream) (body : JVal) (hparse : parseBody rt stream = Except.ok body)
    (hnull : body ≠ JVal.null) (hundef : body ≠ JVal.undefined) :
    handleCalculate rt table stream =
      match calculateFields rt table (body.prop "destination") (body.prop "weight_kg") with
      | Except.error e => sendJSON 400 (caughtBody e)
      | Except.ok response => response := by
  rw [handleCalculate_of_parse rt table stream body hparse,
    calculate_of_props rt table body _ _ hnull hundef rfl rfl]

/-- C3, as stated, fails: the body `\x7b"weight_kg": \x7b"toString": 1\x7d\x7d` has no
destination, but writing `weight_kg` into the first log message throws before the first rule
is reached, and the answer carries the message of that error, not the missing-fields one. -/
theorem handleCalculate_missing_destination_other_error :
    parseBody exampleRuntime
        (BodyStream.complete "\x7b\"weight_kg\":\x7b\"toString\":1\x7d\x7d") =
      Except.ok (JVal.obj [("weight_kg", JVal.obj [("toString", JVal.num (JNum.fin 1))])]) ∧
    (JVal.obj [("weight_kg", JVal.obj [("toString", JVal.num (JNum.fin 1))])]).prop
        "destination" = JVal.undefined ∧
    handleCalculate exampleRuntime jakartaTable
        (BodyStream.complete "\x7b\"weight_kg\":\x7b\"toString\":1\x7d\x7d") =
      sendJSON 400 (caughtBody "Cannot convert object to primitive value") ∧
    handleCalculate exampleRuntime jakartaTable
        (BodyStream.complete "\x7b\"weight_kg\":\x7b\"toString\":1\x7d\x7d") ≠
      sendJSON 400 missingFieldsBody := by
  refine ⟨rfl, rfl, rfl, ?_⟩
  intro h
  have h2 : sendJSON 400 (caughtBody "Cannot convert object to primitive value") =
      sendJSON 400 missingFieldsBody := h
  simp [sendJSON, caughtBody, missingFieldsBody] at h2

/-- C3 (amended): for every table and every parsed body other than `null` in which
destination is missing, `handleCalculate` answers 400 with `success` false whatever
`weight_kg` is; the error is the missing-fields message whenever `weight_kg` has a string
form for the log message (absent, a number, a string, a boolean, `null`, and every array or
object free of an own `toString` property). -/
theorem handleCalculate_missing_destination (rt : Runtime) (table : List TariffRecord)
    (stream : BodyStream) (body : JVal)
    (hparse : parseBody rt stream = Except.ok body)
    (hnull : body ≠ JVal.null) (hundef : body ≠ JVal.undefined)
    (hdest : body.prop "destination" = JVal.undefined) :
    (∃ message, handleCalculate rt table stream = sendJSON 400 (caughtBody message)) ∧
    (∀ shown, (body.prop "weight_kg").toStr rt.numToString = Except.ok shown →
      handleCalculate rt table stream = sendJSON 400 missingFieldsBody) := by
  rw [handleCalculate_of_fields rt table stream body hparse hnull hundef, hdest]
  cases hws : (body.prop "weight_kg").toStr rt.numToString with
  | error e =>
    rw [calculateFields_weight_throws rt table _ _ "undefined" e (toStr_undefined _) hws]
    exact ⟨⟨e, rfl⟩, fun shown h => by cases h⟩
  | ok shownW =>
    rw [calculateFields_missing rt table _ _ "undefined" shownW (toStr_undefined _) hws
      (Or.inl rfl)]
    exact ⟨⟨_, rfl⟩, fun _ _ => rfl⟩

/-- A body with a valid weight and no destination. -/
theorem handleCalculate_missing_destination_witness :
    (∃ message, handleCalculate exampleRuntime jakartaTable
        (BodyStream.complete "\x7b\"weight_kg\":3\x7d") = sendJSON 400 (caughtBody message)) ∧
    (∀ shown, ((JVal.obj [("weight_kg", JVal.num (JNum.fin 3))]).prop "weight_kg").toStr
        exampleRuntime.numToString = Except.ok shown →
      handleCalculate exampleRuntime jakartaTable
        (BodyStream.complete "\x7b\"weight_kg\":3\x7d") = sendJSON 400 missingFieldsBody) :=
  handleCalculate_missing_destination exampleRuntime jakartaTable
    (BodyStream.complete "\x7b\"weight_kg\":3\x7d")
    (JVal.obj [("weight_kg", JVal.num (JNum.fin 3))]) rfl (by simp) (by simp) rfl

/-- C4, as stated, fails: in the body `\x7b"destination": "", "weight_kg": 0\x7d` both fields
are present and the weight is not positive, yet the answer is the missing-fields error: the
first rule treats a falsy destination as missing. -/
theorem handleCalculate_blank_destination_wins :
    parseBody exampleRuntime
        (BodyStream.complete "\x7b\"destination\":\"\",\"weight_kg\":0\x7d") =
      Except.ok (JVal.obj [("destination", JVal.str ""), ("weight_kg", JVal.num (JNum.fin 0))]) ∧
    JNum.leZero (JNum.fin 0) = true ∧
    handleCalculate exampleRuntime jakartaTable
        (BodyStream.complete "\x7b\"destination\":\"\",\"weight_kg\":0\x7d") =
      sendJSON 400 missingFieldsBody ∧
    handleCalculate exampleRuntime jakartaTable
        (BodyStream.complete "\x7b\"destination\":\"\",\"weight_kg\":0\x7d") ≠
      sendJSON 400 invalidWeightBody := by
  refine ⟨rfl, by decide, rfl, ?_⟩
  intro h
  have h2 : sendJSON 400 missingFieldsBody = sendJSON 400 invalidWeightBody := h
  simp [sendJSON, invalidWeightBody, missingFieldsBody] at h2

/-- C4 (amended): for every table and every parsed body whose destination is truthy (present
and not `null`, `false`, `0` or the empty string) and whose `weight_kg` is present but is not
a number, or is a number `<= 0`, `handleCalculate` answers 400 with `success` false and the
invalid-weight error, whether or not the destination is in the table, provided both values
have a string form for the log message. -/
theorem handleCalculate_invalid_weight (rt : Runtime) (table : List TariffRecord)
    (stream : BodyStream) (body : JVal) (shownD shownW : String)
    (hparse : parseBody rt stream = Except.ok body)
    (htruthy : (body.prop "destination").truthy = true)
    (hds : (body.prop "destination").toStr rt.numToString = Except.ok shownD)
    (hws : (body.prop "weight_kg").toStr rt.numToString = Except.ok shownW)
    (hpresent : (body.prop "weight_kg").isUndefined = false)
    (hbad : ∀ W, body.prop "weight_kg" = JVal.num W → W.leZero = true) :
    handleCalculate rt table stream = sendJSON 400 invalidWeightBody ∧
    invalidWeightBody.prop "success" = JVal.bool false ∧
    invalidWeightBody.prop "error" = JVal.str "weight_kg must be a positive number" := by
  have hne : body.prop "destination" ≠ JVal.undefined := by
    intro h
    rw [h] at htruthy
    cases htruthy
  obtain ⟨hnull, hundef⟩ := prop_ne_undefined body "destination" hne
  refine ⟨?_, rfl, rfl⟩
  rw [handleCalculate_of_fields rt table stream body hparse hnull hundef,
    calculateFields_invalid rt table _ _ shownD shownW hds hws htruthy hpresent hbad]

/-- The weight `"10"` (a string) for Jakarta. -/
theorem handleCalculate_invalid_weight_witness :
    handleCalculate exampleRuntime jakartaTable
        (BodyStream.complete "\x7b\"destination\":\"Jakarta\",\"weight_kg\":\"10\"\x7d") =
      sendJSON 400 invalidWeightBody ∧
    invalidWeightBody.prop "success" = JVal.bool false ∧
    invalidWeightBody.prop "error" = JVal.str "weight_kg must be a positive number" :=
  handleCalculate_invalid_weight exampleRuntime jakartaTable
    (BodyStream.complete "\x7b\"destination\":\"Jakarta\",\"weight_kg\":\"10\"\x7d")
    (JVal.obj [("destination", JVal.str "Jakarta"), ("weight_kg", JVal.str "10")])
    "Jakarta" "10" rfl rfl rfl rfl rfl
    (by
      intro W hW
      have h : JVal.str "10" = JVal.num W := hW
      cases h)

/-! ## Malformed bodies, exhaustiveness of the rules, accepted weights -/

/-- C6, as stated, fails for the empty body: `parseBody` does not hand it to `JSON.parse`
(which rejects the empty text) but resolves with the empty object, and the answer is the
missing-fields error, not `Invalid JSON body`. -/
theorem handleCalculate_empty_body_is_empty_object :
    exampleRuntime.jsonParse "" = none ∧
    parseBody exampleRuntime (BodyStream.complete "") = Except.ok (JVal.obj []) ∧
    handleCalculate exampleRuntime jakartaTable (BodyStream.complete "") =
      sendJSON 400 missingFieldsBody ∧
    handleCalculate exampleRuntime jakartaTable (BodyStream.complete "") ≠
      sendJSON 400 (caughtBody "Invalid JSON body") := by
  refine ⟨rfl, rfl, rfl, ?_⟩
  intro h
  have h2 : sendJSON 400 missingFieldsBody = sendJSON 400 (caughtBody "Invalid JSON body") := h
  simp [sendJSON, caughtBody, missingFieldsBody] at h2

/-- C6 (amended): for every non-empty request body that `JSON.parse` rejects, and every
table, `handleCalculate` answers 400 with `success` false and the error `Invalid JSON body`;
the answer is neither the missing-fields nor the invalid-weight one, and it does not depend
on the table. -/
theorem handleCalculate_invalid_json (rt : Runtime) (table : List TariffRecord)
    (text : String) (hne : text ≠ "") (hbad : rt.jsonParse text = none) :
    handleCalculate rt table (BodyStream.complete text) =
      sendJSON 400 (JVal.obj [("success", JVal.bool false),
        ("error", JVal.str "Invalid JSON body")]) ∧
    handleCalculate rt table (BodyStream.complete text) ≠ sendJSON 400 missingFieldsBody ∧
    handleCalculate rt table (BodyStream.complete text) ≠ sendJSON 400 invalidWeightBody := by
  have h : handleCalculate rt table (BodyStream.complete text) =
      sendJSON 400 (JVal.obj [("success", JVal.bool false),
        ("error", JVal.str "Invalid JSON body")]) := by
    simp [handleCalculate, parseBody, hne, hbad, caughtBody]
  refine ⟨h, ?_, ?_⟩
  · rw [h]
    simp [sendJSON, missingFieldsBody]
  · rw [h]
    simp [sendJSON, invalidWeightBody]

/-- The body `\x7b`, an unfinished object. -/
theorem handleCalculate_invalid_json_witness :
    handleCalculate exampleRuntime jakartaTable (BodyStream.complete "\x7b") =
      sendJSON 400 (JVal.obj [("success", JVal.bool false),
        ("error", JVal.str "Invalid JSON body")]) ∧
    handleCalculate exampleRuntime jakartaTable (BodyStream.complete "\x7b") ≠
      sendJSON 400 missingFieldsBody ∧
    handleCalculate exampleRuntime jakartaTable (BodyStream.complete "\x7b") ≠
      sendJSON 400 invalidWeightBody :=
  handleCalculate_invalid_json exampleRuntime jakartaTable "\x7b" (by decide) rfl

/-- C7, as stated, fails: the body `\x7b"destination": 5, "weight_kg": 1\x7d` parses, has both
fields and a numeric weight above zero, and is answered 400 with the message of the
`TypeError` thrown by `destination.toLowerCase()`, which is none of the four outcomes. -/
theorem handleCalculate_numeric_destination_throws :
    parseBody exampleRuntime
        (BodyStream.complete "\x7b\"destination\":5,\"weight_kg\":1\x7d") =
      Except.ok (JVal.obj [("destination", JVal.num (JNum.fin 5)),
        ("weight_kg", JVal.num (JNum.fin 1))]) ∧
    JNum.gtZero (JNum.fin 1) = true ∧
    handleCalculate exampleRuntime jakartaTable
        (BodyStream.complete "\x7b\"destination\":5,\"weight_kg\":1\x7d") =
      sendJSON 400 (caughtBody "destination.toLowerCase is not a function") ∧
    (handleCalculate exampleRuntime jakartaTable
        (BodyStream.complete "\x7b\"destination\":5,\"weight_kg\":1\x7d")).status = 400 ∧
    handleCalculate exampleRuntime jakartaTable
        (BodyStream.complete "\x7b\"destination\":5,\"weight_kg\":1\x7d") ≠
      sendJSON 400 missingFieldsBody ∧
    handleCalculate exampleRuntime jakartaTable
        (BodyStream.complete "\x7b\"destination\":5,\"weight_kg\":1\x7d") ≠
      sendJSON 400 invalidWeightBody := by
  have h : handleCalculate exampleRuntime jakartaTable
        (BodyStream.complete "\x7b\"destination\":5,\"weight_kg\":1\x7d") =
      sendJSON 400 (caughtBody "destination.toLowerCase is not a function") := rfl
  refine ⟨rfl, by decide, h, rfl, ?_, ?_⟩
  · rw [h]
    simp [sendJSON, caughtBody, missingFieldsBody]
  · rw [h]
    simp [sendJSON, caughtBody, invalidWeightBody]

/-- The lookup on an empty table returns no record, whatever `destination` is: the callback
of `find` never runs. -/
theorem findTariff_nil (rt : Runtime) (d : JVal) :
    findTariff rt d [] = Except.ok none := rfl

/-- The lookup on a non-empty table throws when `destination` is not a string. -/
theorem findTariff_not_string (rt : Runtime) (d : JVal) (t : TariffRecord)
    (rest : List TariffRecord) (hd : ∀ D, d ≠ JVal.str D) :
    findTariff rt d (t :: rest) = Except.error notAFunctionMsg := by
  cases d with
  | str s => exact absurd rfl (hd s)
  | undefined => rfl
  | null => rfl
  | bool b => rfl
  | num x => rfl
  | arr items => rfl
  | obj props => rfl

/-- The one way past both rules into the `catch` block: a truthy destination that is not a
string, a numeric weight that is not `<= 0` and a non-empty table. -/
theorem handleCalculate_lookup_throws (rt : Runtime) (t : TariffRecord)
    (rest : List TariffRecord) (stream : BodyStream) (body : JVal) (W : JNum)
    (shownD : String)
    (hparse : parseBody rt stream = Except.ok body)
    (htruthy : (body.prop "destination").truthy = true)
    (hds : (body.prop "destination").toStr rt.numToString = Except.ok shownD)
    (hd : ∀ D, body.prop "destination" ≠ JVal.str D)
    (hW : body.prop "weight_kg" = JVal.num W) (hle : W.leZero = false) :
    handleCalculate rt (t :: rest) stream = sendJSON 400 (caughtBody notAFunctionMsg) := by
  have hne : body.prop "destination" ≠ JVal.undefined := by
    intro h
    rw [h] at htruthy
    cases htruthy
  obtain ⟨hnull, hundef⟩ := prop_ne_undefined body "destination" hne
  rw [handleCalculate_of_fields rt (t :: rest) stream body hparse hnull hundef, hW,
    calculateFields_lookup rt (t :: rest) _ W shownD hds htruthy hle,
    findTariff_not_string rt _ t rest hd]

/-- C7 (amended): for every table and every body that parses to a value other than `null`,
whose destination and `weight_kg` have a string form for the log message, and for which the
lookup, when it runs on a non-empty table, is given a string destination (that is: not at
once a truthy destination that is not a string, a numeric weight that is not `<= 0` and a
non-empty table), the response of `handleCalculate` is one of (i) 400 missing-fields,
(ii) 400 invalid-weight, (iii) 404 destination-not-found with `available_destinations`,
(iv) 200 success for a record of the table; the two 400 answers differ; and a body whose
destination is truthy and whose `weight_kg` is a number above zero is answered 404 or 200,
never 400. -/
theorem handleCalculate_outcomes (rt : Runtime) (table : List TariffRecord)
    (stream : BodyStream) (body : JVal) (shownD shownW : String)
    (hparse : parseBody rt stream = Except.ok body)
    (hnull : body ≠ JVal.null) (hundef : body ≠ JVal.undefined)
    (hds : (body.prop "destination").toStr rt.numToString = Except.ok shownD)
    (hws : (body.prop "weight_kg").toStr rt.numToString = Except.ok shownW)
    (hlookup : (body.prop "destination").truthy = true →
      ∀ W, body.prop "weight_kg" = JVal.num W → W.leZero = false → table ≠ [] →
        ∃ D, body.prop "destination" = JVal.str D) :
    (handleCalculate rt table stream = sendJSON 400 missingFieldsBody ∨
      handleCalculate rt table stream = sendJSON 400 invalidWeightBody ∨
      (∃ shown, handleCalculate rt table stream =
        sendJSON 404 (destinationNotFoundBody shown table)) ∨
      (∃ t ∈ table, ∃ W, handleCalculate rt table stream =
        sendJSON 200 (calculationBody rt t W))) ∧
    sendJSON 400 missingFieldsBody ≠ sendJSON 400 invalidWeightBody ∧
    (∀ W, (body.prop "destination").truthy = true →
      body.prop "weight_kg" = JVal.num W → W.gtZero = true →
      (handleCalculate rt table stream).status = 404 ∨
      (handleCalculate rt table stream).status = 200) := by
  rw [handleCalculate_of_fields rt table stream body hparse hnull hundef]
  have hpast : ∀ W, (body.prop "destination").truthy = true →
      body.prop "weight_kg" = JVal.num W → W.leZero = false →
      (calculateFields rt table (body.prop "destination") (body.prop "weight_kg") =
          Except.ok (sendJSON 404 (destinationNotFoundBody shownD table)) ∨
        ∃ t ∈ table, calculateFields rt table (body.prop "destination")
          (body.prop "weight_kg") = Except.ok (sendJSON 200 (calculationBody rt t W))) := by
    intro W htruthy hW hle
    rw [hW, calculateFields_lookup rt table _ W shownD hds htruthy hle]
    by_cases htable : table = []
    · left
      rw [htable, findTariff_nil]
    · obtain ⟨D, hD⟩ := hlookup htruthy W hW hle htable
      rw [hD]
      obtain ⟨found, hfound, hmem⟩ := findTariff_str_mem rt D table
      rw [hfound]
      cases found with
      | none => left; rfl
      | some t => right; exact ⟨t, hmem t rfl, rfl⟩
  refine ⟨?_, by simp [sendJSON, missingFieldsBody, invalidWeightBody], ?_⟩
  · by_cases hmissing : (body.prop "destination").truthy = false ∨
        (body.prop "weight_kg").isUndefined = true
    · left
      rw [calculateFields_missing rt table _ _ shownD shownW hds hws hmissing]
    · push_neg at hmissing
      have htruthy : (body.prop "destination").truthy = true := by simpa using hmissing.1
      have hpresent : (body.prop "weight_kg").isUndefined = false := by
        simpa using hmissing.2
      by_cases hbad : ∀ W, body.prop "weight_kg" = JVal.num W → W.leZero = true
      · right; left
        rw [calculateFields_invalid rt table _ _ shownD shownW hds hws htruthy hpresent hbad]
      · push_neg at hbad
        obtain ⟨W, hW, hle⟩ := hbad
        have hle2 : W.leZero = false := by simpa using hle
        rcases hpast W htruthy hW hle2 with h | ⟨t, ht, h⟩
        · right; right; left
          exact ⟨shownD, by rw [h]⟩
        · right; right; right
          exact ⟨t, ht, W, by rw [h]⟩
  · intro W htruthy hW hpos
    rcases hpast W htruthy hW (leZero_of_gtZero W hpos) with h | ⟨t, _, h⟩
    · left
      rw [h]
      rfl
    · right
      rw [h]
      rfl

/-- A numeric destination with weight 0 against the Jakarta table: the second rule answers
before the lookup, so the request falls under the second outcome. -/
theorem handleCalculate_outcomes_witness :
    (handleCalculate exampleRuntime jakartaTable
        (BodyStream.complete "\x7b\"destination\":5,\"weight_kg\":0\x7d") =
        sendJSON 400 missingFieldsBody ∨
      handleCalculate exampleRuntime jakartaTable
        (BodyStream.complete "\x7b\"destination\":5,\"weight_kg\":0\x7d") =
        sendJSON 400 invalidWeightBody ∨
      (∃ shown, handleCalculate exampleRuntime jakartaTable
        (BodyStream.complete "\x7b\"destination\":5,\"weight_kg\":0\x7d") =
        sendJSON 404 (destinationNotFoundBody shown jakartaTable)) ∨
      (∃ t ∈ jakartaTable, ∃ W, handleCalculate exampleRuntime jakartaTable
        (BodyStream.complete "\x7b\"destination\":5,\"weight_kg\":0\x7d") =
        sendJSON 200 (calculationBody exampleRuntime t W))) ∧
    sendJSON 400 missingFieldsBody ≠ sendJSON 400 invalidWeightBody ∧
    (∀ W, ((JVal.obj [("destination", JVal.num (JNum.fin 5)),
        ("weight_kg", JVal.num (JNum.fin 0))]).prop "destination").truthy = true →
      (JVal.obj [("destination", JVal.num (JNum.fin 5)),
        ("weight_kg", JVal.num (JNum.fin 0))]).prop "weight_kg" = JVal.num W →
      W.gtZero = true →
      (handleCalculate exampleRuntime jakartaTable
        (BodyStream.complete "\x7b\"destination\":5,\"weight_kg\":0\x7d")).status = 404 ∨
      (handleCalculate exampleRuntime jakartaTable
        (BodyStream.complete "\x7b\"destination\":5,\"weight_kg\":0\x7d")).status = 200) :=
  handleCalculate_outcomes exampleRuntime jakartaTable
    (BodyStream.complete "\x7b\"destination\":5,\"weight_kg\":0\x7d")
    (JVal.obj [("destination", JVal.num (JNum.fin 5)),
        ("weight_kg", JVal.num (JNum.fin 0))])
    (showNum (JNum.fin 5)) (showNum (JNum.fin 0)) rfl (by simp) (by simp) rfl rfl
    (by
      intro _ W hW hle _
      have h : JVal.num (JNum.fin 0) = JVal.num W := hW
      cases h
      exact absurd hle (by decide))

/-- Every response the try block sends has one of four shapes; a 200 is sent only for a
numeric weight that is not `<= 0` and a record of the table. -/
theorem calculateFields_shape (rt : Runtime) (table : List TariffRecord) (d w : JVal)
    (r : Response) (h : calculateFields rt table d w = Except.ok r) :
    r = sendJSON 400 missingFieldsBody ∨ r = sendJSON 400 invalidWeightBody ∨
    (∃ shown, r = sendJSON 404 (destinationNotFoundBody shown table)) ∨
    (∃ t W, r = sendJSON 200 (calculationBody rt t W) ∧ w = JVal.num W ∧
      W.leZero = false) := by
  cases hds : d.toStr rt.numToString with
  | error e => simp [calculateFields, hds] at h
  | ok shown =>
    cases hws : w.toStr rt.numToString with
    | error e => simp [calculateFields, hds, hws] at h
    | ok shownW =>
      by_cases hmissing : d.truthy = false ∨ w.isUndefined = true
      · rw [calculateFields_missing rt table d w shown shownW hds hws hmissing] at h
        left
        exact (Except.ok.inj h).symm
      · push_neg at hmissing
        have htruthy : d.truthy = true := by simpa using hmissing.1
        have hpresent : w.isUndefined = false := by simpa using hmissing.2
        by_cases hbad : ∀ W, w = JVal.num W → W.leZero = true
        · rw [calculateFields_invalid rt table d w shown shownW hds hws htruthy hpresent
            hbad] at h
          right; left
          exact (Except.ok.inj h).symm
        · push_neg at hbad
          obtain ⟨W, hW, hle⟩ := hbad
          have hle2 : W.leZero = false := by simpa using hle
          rw [hW, calculateFields_lookup rt table d W shown hds htruthy hle2] at h
          cases hf : findTariff rt d table with
          | error e => simp [hf] at h
          | ok found =>
            cases found with
            | none =>
              simp only [hf] at h
              right; right; left
              exact ⟨shown, (Except.ok.inj h).symm⟩
            | some t =>
              simp only [hf] at h
              right; right; right
              exact ⟨t, W, (Except.ok.inj h).symm, hW, hle2⟩

/-- Every response of `handleCalculate`: the answer of the `catch` block, or one of the four
answers of the try block. -/
theorem handleCalculate_shape (rt : Runtime) (table : List TariffRecord)
    (stream : BodyStream) :
    (∃ e, handleCalculate rt table stream = sendJSON 400 (caughtBody e)) ∨
    handleCalculate rt table stream = sendJSON 400 missingFieldsBody ∨
    handleCalculate rt table stream = sendJSON 400 invalidWeightBody ∨
    (∃ shown, handleCalculate rt table stream =
      sendJSON 404 (destinationNotFoundBody shown table)) ∨
    (∃ body t W, parseBody rt stream = Except.ok body ∧
      handleCalculate rt table stream = sendJSON 200 (calculationBody rt t W) ∧
      body.prop "weight_kg" = JVal.num W ∧ W.leZero = false) := by
  cases hparse : parseBody rt stream with
  | error e =>
    left
    exact ⟨e, by simp only [handleCalculate, hparse]⟩
  | ok body =>
    by_cases hnull : body = JVal.null
    · left
      exact ⟨destructureNullMsg, by
        simp only [handleCalculate, hparse, hnull, calculate, destructureBody]⟩
    · by_cases hundef : body = JVal.undefined
      · left
        exact ⟨destructureUndefinedMsg, by
          simp only [handleCalculate, hparse, hundef, calculate, destructureBody]⟩
      · rw [handleCalculate_of_fields rt table stream body hparse hnull hundef]
        cases hc : calculateFields rt table (body.prop "destination") (body.prop "weight_kg") with
        | error e =>
          left
          exact ⟨e, rfl⟩
        | ok r =>
          rcases calculateFields_shape rt table _ _ r hc with
            h | h | ⟨shown, h⟩ | ⟨t, W, h, hW, hle⟩
          · right; left
            exact h
          · right; right; left
            exact h
          · right; right; right; left
            exact ⟨shown, h⟩
          · right; right; right; right
            exact ⟨body, t, W, rfl, h, hW, hle⟩

/-- C10, as stated, fails: `1e999` parses to `Infinity`, which is a number and is not
`<= 0`, so the request for Jakarta with that weight is answered 200 although the weight is
not finite. -/
theorem handleCalculate_accepts_infinite_weight :
    parseBody exampleRuntime
        (BodyStream.complete "\x7b\"destination\":\"Jakarta\",\"weight_kg\":1e999\x7d") =
      Except.ok (JVal.obj [("destination", JVal.str "Jakarta"),
        ("weight_kg", JVal.num JNum.posInf)]) ∧
    JNum.isFinite JNum.posInf = false ∧
    handleCalculate exampleRuntime jakartaTable
        (BodyStream.complete "\x7b\"destination\":\"Jakarta\",\"weight_kg\":1e999\x7d") =
      sendJSON 200 (calculationBody exampleRuntime jakarta JNum.posInf) ∧
    (handleCalculate exampleRuntime jakartaTable
        (BodyStream.complete "\x7b\"destination\":\"Jakarta\",\"weight_kg\":1e999\x7d")).status =
      200 := by
  exact ⟨rfl, rfl, rfl, rfl⟩

/-- C10 (amended): `handleCalculate` answers 200 only when `weight_kg` in the parsed body is
of numeric type and is not `<= 0`: for every table and every body, a response with status
200 means the body parsed and its `weight_kg` is a number `W` for which `W <= 0` is false,
hence `W > 0` unless `W` is `NaN` (which `JSON.parse` never produces).  Finiteness is not
checked. -/
theorem handleCalculate_accepted_weight (rt : Runtime) (table : List TariffRecord)
    (stream : BodyStream) (h200 : (handleCalculate rt table stream).status = 200) :
    ∃ body W, parseBody rt stream = Except.ok body ∧
      body.prop "weight_kg" = JVal.num W ∧ W.leZero = false ∧
      (W ≠ JNum.nan → W.gtZero = true) := by
  rcases handleCalculate_shape rt table stream with
    ⟨e, h⟩ | h | h | ⟨shown, h⟩ | ⟨body, t, W, hparse, _, hW, hle⟩
  · rw [h] at h200
    simp [sendJSON] at h200
  · rw [h] at h200
    simp [sendJSON] at h200
  · rw [h] at h200
    simp [sendJSON] at h200
  · rw [h] at h200
    simp [sendJSON] at h200
  · exact ⟨body, W, hparse, hW, hle, gtZero_of_leZero_false W hle⟩

/-- The request of the example of the spec is answered 200; its weight is 2. -/
theorem handleCalculate_accepted_weight_witness :
    ∃ body W, parseBody exampleRuntime
        (BodyStream.complete "\x7b\"destination\":\"jakarta\",\"weight_kg\":2\x7d") =
        Except.ok body ∧
      body.prop "weight_kg" = JVal.num W ∧ W.leZero = false ∧
      (W ≠ JNum.nan → W.gtZero = true) :=
  handleCalculate_accepted_weight exampleRuntime jakartaTable
    (BodyStream.complete "\x7b\"destination\":\"jakarta\",\"weight_kg\":2\x7d") rfl

/-! ## Dispatch -/

theorem handleCalculate_ne_endpointNotFound (rt : Runtime) (table : List TariffRecord)
    (stream : BodyStream) : handleCalculate rt table stream ≠ endpointNotFoundResponse := by
  rcases handleCalculate_shape rt table stream with
    ⟨e, h⟩ | h | h | ⟨shown, h⟩ | ⟨body, t, W, _, h, _, _⟩
  all_goals
    rw [h]
    simp [sendJSON, endpointNotFoundResponse, destinationNotFoundBody]

/-- C8: for every request whose method is not `OPTIONS`, every table and every body: when
(method, pathname) is none of (GET, `/`), (GET, `/health`), (GET, `/tariffs`),
(POST, `/calculate`) the server answers with the one endpoint-not-found response (status
404, `success` false, error `Endpoint not found`, the four routes listed), which mentions
neither the body nor the table; and for each of the four pairs the answer is not that
response. -/
theorem server_dispatch (rt : Runtime) (table : List TariffRecord) (req : Request)
    (hmethod : req.method ≠ "OPTIONS") :
    (¬ ((req.method = "GET" ∧ req.pathname = some "/") ∨
        (req.method = "GET" ∧ req.pathname = some "/health") ∨
        (req.method = "GET" ∧ req.pathname = some "/tariffs") ∨
        (req.method = "POST" ∧ req.pathname = some "/calculate")) →
      server rt table req =
        { status := 404
          headers := [("Content-Type", "application/json"),
            ("Access-Control-Allow-Origin", "*"),
            ("Access-Control-Allow-Methods", "GET, POST, OPTIONS"),
            ("Access-Control-Allow-Headers", "Content-Type")]
          body := some (JVal.obj [("success", JVal.bool false),
            ("error", JVal.str "Endpoint not found"),
            ("available_endpoints", JVal.arr [JVal.str "GET /", JVal.str "GET /health",
              JVal.str "GET /tariffs", JVal.str "POST /calculate"])]) }) ∧
    (((req.method = "GET" ∧ req.pathname = some "/") ∨
        (req.method = "GET" ∧ req.pathname = some "/health") ∨
        (req.method = "GET" ∧ req.pathname = some "/tariffs") ∨
        (req.method = "POST" ∧ req.pathname = some "/calculate")) →
      server rt table req ≠ endpointNotFoundResponse) := by
  constructor
  · intro hnot
    push_neg at hnot
    obtain ⟨h1, h2, h3, h4⟩ := hnot
    have hroot : ¬ (req.pathname = some "/" ∧ req.method = "GET") := fun h => h1 h.2 h.1
    have hhealth : ¬ (req.pathname = some "/health" ∧ req.method = "GET") :=
      fun h => h2 h.2 h.1
    have htariffs : ¬ (req.pathname = some "/tariffs" ∧ req.method = "GET") :=
      fun h => h3 h.2 h.1
    have hcalc : ¬ (req.pathname = some "/calculate" ∧ req.method = "POST") :=
      fun h => h4 h.2 h.1
    simp only [server, hmethod, hroot, hhealth, htariffs, hcalc, if_false]
    rfl
  · intro hknown
    rcases hknown with ⟨hm, hp⟩ | ⟨hm, hp⟩ | ⟨hm, hp⟩ | ⟨hm, hp⟩
    · simp [server, hm, hp, welcomeResponse, endpointNotFoundResponse, sendJSON]
    · simp [server, hm, hp, handleHealth, endpointNotFoundResponse, sendJSON]
    · simp [server, hm, hp, handleGetTariffs, endpointNotFoundResponse, sendJSON]
    · simp only [server, hm, hp]
      simp only [String.reduceEq, if_false, and_false, and_self, if_true, reduceCtorEq,
        Option.some.injEq, false_and]
      exact handleCalculate_ne_endpointNotFound rt table req.body

/-- The request `POST /tariffs`: a known path with the wrong method. -/
theorem server_dispatch_witness :
    (¬ (("POST" = "GET" ∧ some "/tariffs" = some "/") ∨
        ("POST" = "GET" ∧ some "/tariffs" = some "/health") ∨
        ("POST" = "GET" ∧ some "/tariffs" = some "/tariffs") ∨
        ("POST" = "POST" ∧ some "/tariffs" = some "/calculate")) →
      server exampleRuntime jakartaTable
          { method := "POST", pathname := some "/tariffs", body := BodyStream.complete "" } =
        { status := 404
          headers := [("Content-Type", "application/json"),
            ("Access-Control-Allow-Origin", "*"),
            ("Access-Control-Allow-Methods", "GET, POST, OPTIONS"),
            ("Access-Control-Allow-Headers", "Content-Type")]
          body := some (JVal.obj [("success", JVal.bool false),
            ("error", JVal.str "Endpoint not found"),
            ("available_endpoints", JVal.arr [JVal.str "GET /", JVal.str "GET /health",
              JVal.str "GET /tariffs", JVal.str "POST /calculate"])]) }) ∧
    ((("POST" = "GET" ∧ some "/tariffs" = some "/") ∨
        ("POST" = "GET" ∧ some "/tariffs" = some "/health") ∨
        ("POST" = "GET" ∧ some "/tariffs" = some "/tariffs") ∨
        ("POST" = "POST" ∧ some "/tariffs" = some "/calculate")) →
      server exampleRuntime jakartaTable
          { method := "POST", pathname := some "/tariffs", body := BodyStream.complete "" } ≠
        endpointNotFoundResponse) :=
  server_dispatch exampleRuntime jakartaTable
    { method := "POST", pathname := some "/tariffs", body := BodyStream.complete "" }
    (by decide)

/-- C9: for every pathname (also `null`), every body and every table, a request with method
`OPTIONS` is answered with status 204, no payload and the three headers
`Access-Control-Allow-Origin: *`, `Access-Control-Allow-Methods` and
`Access-Control-Allow-Headers`; no route handler runs and the answer is the same for every
path. -/
theorem server_preflight (rt : Runtime) (table : List TariffRecord)
    (pathname : Option String) (body : BodyStream) :
    server rt table { method := "OPTIONS", pathname := pathname, body := body } =
      { status := 204
        headers := [("Access-Control-Allow-Origin", "*"),
          ("Access-Control-Allow-Methods", "GET, POST, OPTIONS"),
          ("Access-Control-Allow-Headers", "Content-Type")]
        body := none } := by
  simp [server, preflightResponse]

end Logistics
